import Mathlib

/-!
Verification of the reconciliation/matching engine of the company-analysis
repository (`src/lib/deepseek.ts` and the API routes under `src/app/api/`).

The TypeScript source is shallowly embedded below:

* reference rows (`Industry`, `JobRole`, `Skill`, `Task`, `SkillMap`,
  `MasterSkill`) become Lean structures with `String` fields;
* JavaScript numbers used for scores and ratings become `ℚ`, returned
  confidences become `ℤ` (`Math.round` is `jsRound` below);
* JavaScript string primitives (`includes`, `toLowerCase`, `trim`, `split`)
  are modelled by executable functions on the character lists of `String`s;
* the third-party libraries `fuse.js` (`new Fuse(list, opts).search(q)`) and
  `string-similarity` (`findBestMatch(q, names).bestMatch`) are opaque to the
  repository; they are modelled as parameters gathered in `MatchEnv`, and
  theorems that depend on their documented behaviour (results drawn from the
  candidate list, scores and ratings in `[0,1]`) state that behaviour as a
  hypothesis;
* a JavaScript `TypeError` caused by reading a field of `undefined` is
  modelled by returning `none` (for `matchCompanyData`) or an explicit
  error constructor (for the `update-analysis` route).

All definitions are in namespace `HP`.
-/

namespace HP

/-- JavaScript `Math.round` on the rationals: JS rounds half toward `+∞`,
which is `⌊q + 1/2⌋` at every rational. -/
def jsRound (q : ℚ) : ℤ := ⌊q + 1/2⌋

/-- Whether `sub` occurs contiguously in `l` (helper for `jsIncludes`). -/
def charListContains (sub : List Char) : List Char → Bool
  | [] => sub.isEmpty
  | c :: rest => sub.isPrefixOf (c :: rest) || charListContains sub rest

/-- JavaScript `s.includes(sub)`: `sub` occurs contiguously inside `s`. -/
def jsIncludes (s sub : String) : Bool := charListContains sub.data s.data

/-- JavaScript `s.toLowerCase()` (on the ASCII alphabet used by the data). -/
def jsToLower (s : String) : String := ⟨s.data.map Char.toLower⟩

/-- JavaScript `s.trim()`: strip leading and trailing whitespace. -/
def jsTrim (s : String) : String :=
  ⟨((s.data.dropWhile Char.isWhitespace).reverse.dropWhile Char.isWhitespace).reverse⟩

/-- Helper for `jsSplit`: accumulate the current field, emit on separator. -/
def jsSplitAux (sep : Char) : List Char → List Char → List (List Char)
  | [], acc => [acc.reverse]
  | c :: rest, acc =>
      if c = sep then acc.reverse :: jsSplitAux sep rest []
      else jsSplitAux sep rest (c :: acc)

/-- JavaScript `s.split(sep)` for a one-character separator (the source only
splits on `'\n'` and `','`).  `"".split(sep)` is `[""]`, as in JS. -/
def jsSplit (s : String) (sep : Char) : List String :=
  (jsSplitAux sep s.data []).map (fun l => ⟨l⟩)

/-- Row of `s_industries.csv` (`interface Industry`, deepseek.ts:165). -/
structure Industry where
  id : String
  industry_name : String
  description : String
deriving DecidableEq

/-- Row of `s_jobrole.csv` (`interface JobRole`, deepseek.ts:171). -/
structure JobRole where
  id : String
  industry_id : String
  role_name : String
  department : String
  sub_department : String
  description : String
deriving DecidableEq

/-- Row of `s_jobrole_skills.csv` (`interface Skill`, deepseek.ts:180). -/
structure Skill where
  id : String
  jobrole_id : String
  skill_name : String
  skill_level : String
  importance : String
deriving DecidableEq

/-- Row of `s_jobrole_task.csv` (`interface Task`, deepseek.ts:188). -/
structure Task where
  id : String
  jobrole_id : String
  task_name : String
  frequency : String
  complexity : String
deriving DecidableEq

/-- Row of `s_skill_map_k_a.csv` (`interface SkillMap`, deepseek.ts:196). -/
structure SkillMap where
  id : String
  skill_name : String
  knowledge_area : String
  ability_description : String
deriving DecidableEq

/-- Row of `master_skills.csv` (`interface MasterSkill`, deepseek.ts:203). -/
structure MasterSkill where
  id : String
  skill_category : String
  skill_name : String
  description : String
  proficiency_level : String
deriving DecidableEq

/-- The consolidated result (`interface MatchedData`, deepseek.ts:211). -/
structure MatchedData where
  industry : Industry
  jobRoles : List JobRole
  skills : List Skill
  tasks : List Task
  knowledgeAreas : List SkillMap
  masterSkills : List MasterSkill
  confidence : ℤ
deriving DecidableEq

/-- The six tables handed to the `DataMatcher` constructor. -/
structure MatcherData where
  industries : List Industry
  jobRoles : List JobRole
  skills : List Skill
  tasks : List Task
  skillMaps : List SkillMap
  masterSkills : List MasterSkill

/-- The `DataMatcher` constructor (deepseek.ts:229-244): every table is
filtered to the rows whose name field is a non-empty string (in the typed
embedding `null` rows and non-string name fields cannot occur, so the JS
truthiness-and-typeof check collapses to `≠ ""`). -/
def mkDataMatcher (d : MatcherData) : MatcherData where
  industries := d.industries.filter (fun i => i.industry_name ≠ "")
  jobRoles := d.jobRoles.filter (fun jr => jr.role_name ≠ "")
  skills := d.skills.filter (fun s => s.skill_name ≠ "")
  tasks := d.tasks.filter (fun t => t.task_name ≠ "")
  skillMaps := d.skillMaps.filter (fun sm => sm.skill_name ≠ "")
  masterSkills := d.masterSkills.filter (fun ms => ms.skill_name ≠ "")

/-- One hit of `fuse.search(query)` with `includeScore: true`. -/
structure FuseResult (T : Type) where
  item : T
  score : ℚ

/-- `stringSimilarity.findBestMatch(query, names).bestMatch`. -/
structure SimMatch where
  target : String
  rating : ℚ

/-- The opaque third-party calls made by the matcher.  `fuseIndustries`
stands for `new Fuse(industries, ...).search(q)` (deepseek.ts:265-271),
`fuseJobRoles` for the analogous search over job roles (deepseek.ts:334-340),
and `simBest` for `stringSimilarity.findBestMatch(q, names).bestMatch`, with
`none` standing for a thrown exception (which the source catches and treats
as no match, deepseek.ts:301-304 and 370-373). -/
structure MatchEnv where
  fuseIndustries : List Industry → String → List (FuseResult Industry)
  fuseJobRoles : List JobRole → String → List (FuseResult JobRole)
  simBest : String → List String → Option SimMatch

/-- An environment in which both tiers find nothing; used to instantiate
theorems at concrete inputs whose executions either never consult the tiers
or fall through them. -/
def trivEnv : MatchEnv where
  fuseIndustries := fun _ _ => []
  fuseJobRoles := fun _ _ => []
  simBest := fun _ _ => none

/-- The synthetic industry returned when the industry table is empty
(deepseek.ts:250). -/
def syntheticIndustry : Industry :=
  { id := "1", industry_name := "Technology", description := "Technology services" }

/-- The non-blank industry names handed to `stringSimilarity`
(deepseek.ts:281-283). -/
def industryNames (industries : List Industry) : List String :=
  (industries.map (fun i => i.industry_name)).filter (fun n => jsTrim n ≠ "")

/-- The non-blank role names handed to `stringSimilarity`
(deepseek.ts:350-352). -/
def roleNames (industryRoles : List JobRole) : List String :=
  (industryRoles.map (fun jr => jr.role_name)).filter (fun n => jsTrim n ≠ "")

/-- `DataMatcher.findBestIndustry` (deepseek.ts:247-311). -/
def findBestIndustry (env : MatchEnv) (m : MatcherData) (searchTerm : String) :
    Industry × ℤ :=
  if searchTerm = "" ∨ m.industries = [] then
    (m.industries.headD syntheticIndustry, 0)
  else
    let cleanSearchTerm := jsTrim searchTerm
    if cleanSearchTerm = "" then
      (m.industries.headD syntheticIndustry, 0)
    else
      match env.fuseIndustries m.industries cleanSearchTerm with
      | bestMatch :: _ =>
          (bestMatch.item, jsRound ((1 - bestMatch.score) * 100))
      | [] =>
          let names := industryNames m.industries
          if names = [] then
            (m.industries.headD syntheticIndustry, 20)
          else
            match env.simBest cleanSearchTerm names with
            | some bestMatch =>
                if bestMatch.rating > 3/10 then
                  match m.industries.find? (fun i => i.industry_name = bestMatch.target) with
                  | some industry => (industry, jsRound (bestMatch.rating * 100))
                  | none => (m.industries.headD syntheticIndustry, 20)
                else
                  (m.industries.headD syntheticIndustry, 20)
            | none =>
                (m.industries.headD syntheticIndustry, 20)

/-- The job roles belonging to an industry
(`this.jobRoles.filter(jr => jr.industry_id === industryId)`,
deepseek.ts:315). -/
def industryRolesOf (m : MatcherData) (industryId : String) : List JobRole :=
  m.jobRoles.filter (fun jr => jr.industry_id = industryId)

/-- `industryRoles[0] || this.jobRoles[0]` (deepseek.ts:319 and elsewhere):
the fallback job role, `undefined` (`none`) when both lists are empty. -/
def firstRoleOf (m : MatcherData) (industryId : String) : Option JobRole :=
  (industryRolesOf m industryId).head? <|> m.jobRoles.head?

/-- `DataMatcher.findBestJobRole` (deepseek.ts:314-379).  The returned job
role is an `Option` because `industryRoles[0] || this.jobRoles[0]` is
`undefined` in JavaScript when both lists are empty. -/
def findBestJobRole (env : MatchEnv) (m : MatcherData) (searchTerm : String)
    (industryId : String) : Option JobRole × ℤ :=
  let industryRoles := industryRolesOf m industryId
  let firstRole : Option JobRole := firstRoleOf m industryId
  if searchTerm = "" ∨ industryRoles = [] then
    (firstRole, 0)
  else
    let cleanSearchTerm := jsTrim searchTerm
    if cleanSearchTerm = "" then
      (firstRole, 0)
    else
      match env.fuseJobRoles industryRoles cleanSearchTerm with
      | bestMatch :: _ =>
          (some bestMatch.item, jsRound ((1 - bestMatch.score) * 100))
      | [] =>
          let names := roleNames industryRoles
          if names = [] then
            (firstRole, 15)
          else
            match env.simBest cleanSearchTerm names with
            | some bestMatch =>
                if bestMatch.rating > 1/5 then
                  match industryRoles.find? (fun jr => jr.role_name = bestMatch.target) with
                  | some jobRole => (some jobRole, jsRound (bestMatch.rating * 100))
                  | none => (firstRole, 15)
                else
                  (firstRole, 15)
            | none =>
                (firstRole, 15)

/-- The record returned by `DataMatcher.getRelatedData` (deepseek.ts:382). -/
structure RelatedData where
  skills : List Skill
  tasks : List Task
  knowledgeAreas : List SkillMap
  masterSkills : List MasterSkill

/-- The bidirectional case-insensitive containment test used for the
knowledge-area and master-skill joins (deepseek.ts:396-397 and 408-409).
The surrounding `try/catch` returns `false` on a thrown comparison; on the
typed embedding the comparison is total, so the catch arm is dead. -/
def skillNameMatches (sn other : String) : Bool :=
  jsIncludes (jsToLower sn) (jsToLower other) ||
    jsIncludes (jsToLower other) (jsToLower sn)

/-- `DataMatcher.getRelatedData` (deepseek.ts:382-422). -/
def getRelatedData (m : MatcherData) (jobRoleId : String) : RelatedData :=
  let skills := m.skills.filter (fun s => s.jobrole_id = jobRoleId)
  let tasks := m.tasks.filter (fun t => t.jobrole_id = jobRoleId)
  let skillNames := (skills.map (fun s => s.skill_name)).filter (fun n => n ≠ "")
  let knowledgeAreas := m.skillMaps.filter (fun sm =>
    skillNames.any (fun sn => skillNameMatches sn sm.skill_name))
  let masterSkills := m.masterSkills.filter (fun ms =>
    skillNames.any (fun sn => skillNameMatches sn ms.skill_name))
  { skills := skills, tasks := tasks,
    knowledgeAreas := knowledgeAreas, masterSkills := masterSkills }

/-- `DataMatcher.matchCompanyData` (deepseek.ts:425-454).  Returns `none`
when the job-role lookup produced `undefined` and the subsequent
`jobRole.id` field access throws a `TypeError` (deepseek.ts:440); the
`skillsSearch` parameter of the source is unused there and omitted here. -/
def matchCompanyData (env : MatchEnv) (m : MatcherData)
    (industrySearch jobRoleSearch : String) : Option MatchedData :=
  let indRes := findBestIndustry env m industrySearch
  let jrRes := findBestJobRole env m jobRoleSearch indRes.1.id
  match jrRes.1 with
  | none => none
  | some jobRole =>
      let industryJobRoles := industryRolesOf m indRes.1.id
      let relatedData := getRelatedData m jobRole.id
      let overallConfidence := jsRound (((indRes.2 : ℚ) + (jrRes.2 : ℚ)) / 2)
      some { industry := indRes.1
             jobRoles := industryJobRoles
             skills := relatedData.skills
             tasks := relatedData.tasks
             knowledgeAreas := relatedData.knowledgeAreas
             masterSkills := relatedData.masterSkills
             confidence := overallConfidence }

/-- The oracle's structured reply (`interface DeepSeekResponse`,
deepseek.ts:1-11).  A field the JSON reply omits is `undefined` in JS; for
the two validated string fields (`industry`, `jobRole`) the falsiness test
of the source collapses to `= ""` in the typed embedding. -/
structure DeepSeekResponse where
  industry : String
  department : String
  subDepartment : String
  jobRole : String
  skills : List String
  tasks : List String
  knowledgeAreas : List String
  reasoning : String
  confidence : ℤ
deriving DecidableEq

/-- `domain.includes('health') || domain.includes('medical') ||
domain.includes('clinic')` (deepseek.ts:122). -/
def healthKeyword (domain : String) : Bool :=
  jsIncludes domain "health" || jsIncludes domain "medical" || jsIncludes domain "clinic"

/-- The finance-domain keyword test of deepseek.ts:127. -/
def bankKeyword (domain : String) : Bool :=
  jsIncludes domain "bank" || jsIncludes domain "finance" || jsIncludes domain "invest"

/-- The education-domain keyword test of deepseek.ts:132. -/
def eduKeyword (domain : String) : Bool :=
  jsIncludes domain "edu" || jsIncludes domain "school" || jsIncludes domain "university"

/-- The retail-domain keyword test of deepseek.ts:137. -/
def shopKeyword (domain : String) : Bool :=
  jsIncludes domain "shop" || jsIncludes domain "store" || jsIncludes domain "retail"

/-- The media-domain keyword test of deepseek.ts:142. -/
def gameKeyword (domain : String) : Bool :=
  jsIncludes domain "game" || jsIncludes domain "gaming" || jsIncludes domain "rockstar"

/-- `createFallbackResponse` (deepseek.ts:112-160).  The source computes
`domain = new URL(websiteUrl).hostname.toLowerCase()`; URL parsing lives in
the JS standard library, so this embedding takes the already-extracted
`hostname` as its second argument and lowercases it. -/
def createFallbackResponse (content : String) (hostname : String) : DeepSeekResponse :=
  let domain := jsToLower hostname
  let ijds : String × String × String × String :=
    if healthKeyword domain then
      ("Healthcare", "Healthcare Professional", "Medical", "Patient Care")
    else if bankKeyword domain then
      ("Finance", "Financial Analyst", "Finance", "Analysis")
    else if eduKeyword domain then
      ("Education", "Teacher", "Education", "Instruction")
    else if shopKeyword domain then
      ("Retail", "Sales Manager", "Sales", "Management")
    else if gameKeyword domain then
      ("Media", "Game Developer", "Game Development", "Game Design")
    else
      ("Technology", "Software Engineer", "Engineering", "Development")
  { industry := ijds.1
    department := ijds.2.2.1
    subDepartment := ijds.2.2.2
    jobRole := ijds.2.1
    skills := ["Communication", "Problem Solving", "Team Collaboration"]
    tasks := ["Daily Operations", "Customer Service", "Project Management"]
    knowledgeAreas := ["Industry Knowledge", "Technical Skills", "Business Acumen"]
    reasoning := if content ≠ "" then content
                 else "Analysis based on domain keywords from " ++ domain
    confidence := if content ≠ "" then 60 else 30 }

/-- What the environment delivered to `analyzeCompanyWithDeepSeek`:
either the fetch failed (network error, non-ok status, or no/empty message
content — all of which reach the outer catch of deepseek.ts:105-109), or a
non-empty content string arrived together with the outcome of
`content.match(/json-object/)` + `JSON.parse` on it (`none` when no JSON
object was found or parsing threw, deepseek.ts:87-92). -/
inductive OracleOutcome where
  | fetchFailure
  | reply (content : String) (parsed : Option DeepSeekResponse)

/-- The response-processing part of `analyzeCompanyWithDeepSeek`
(deepseek.ts:74-109): a fetch failure falls back with empty content; a reply
whose JSON could not be extracted, or whose parsed object is missing the
`industry` or `jobRole` field, falls back with the received content;
otherwise the parsed reply is returned as-is. -/
def analyzeCompanyWithDeepSeek (outcome : OracleOutcome) (hostname : String) :
    DeepSeekResponse :=
  match outcome with
  | .fetchFailure => createFallbackResponse "" hostname
  | .reply content parsed =>
      match parsed with
      | none => createFallbackResponse content hostname
      | some parsedResponse =>
          if parsedResponse.industry = "" ∨ parsedResponse.jobRole = "" then
            createFallbackResponse content hostname
          else
            parsedResponse

/-- The non-blank lines of the (trimmed) CSV input (deepseek.ts:463). -/
def csvLines (csvContent : String) : List String :=
  (jsSplit (jsTrim csvContent) '\n').filter
    (fun line => (line != "") && (jsTrim line != ""))

/-- The trimmed header fields of the first line (deepseek.ts:466). -/
def csvHeaders (csvContent : String) : List String :=
  (jsSplit ((csvLines csvContent).headD "") ',').map jsTrim

/-- `row[header] = value` on a JavaScript object modelled as an association
list: overwrite the value if the key is present (keeping its position),
append the binding otherwise. -/
def objSet (row : List (String × String)) (key value : String) :
    List (String × String) :=
  if row.any (fun p => p.1 = key) then
    row.map (fun p => if p.1 = key then (key, value) else p)
  else
    row ++ [(key, value)]

/-- The row-building loop `headers.forEach((header, index) => row[header] =
values[index] ?? '')` of deepseek.ts:476-479, with JS object semantics. -/
def mkRow (headers values : List String) : List (String × String) :=
  headers.enum.foldl (fun row p => objSet row p.2 (values.getD p.1 "")) []

/-- `parseCSVData` (deepseek.ts:458-489).  The `csvContent` guard of the
source checks for `null`/non-string input, which the typed embedding cannot
produce. -/
def parseCSVData (csvContent : String) : List (List (String × String)) :=
  let lines := csvLines csvContent
  if lines.length < 2 then []
  else
    let headers := csvHeaders csvContent
    lines.tail.filterMap (fun rawLine =>
      let line := jsTrim rawLine
      if line = "" then none
      else
        let values := (jsSplit line ',').map jsTrim
        let row := mkRow headers values
        if row.any (fun p => p.2 != "") then some row else none)

/-- Modelled from the spec (§4.1, §6): a row is the headers zipped with the
line's trimmed fields, missing trailing fields padded with the empty string.
Used as the comparison point for the refinement claim about `parseCSVData`. -/
def zipPadRow (headers values : List String) : List (String × String) :=
  headers.enum.map (fun p => (p.2, values.getD p.1 ""))

/-- Modelled from the spec (§4.1): first line is the header, each subsequent
non-blank line is split on the delimiter and zipped with the headers, rows
where every field is empty are dropped. -/
def parseCSVSpec (csvContent : String) : List (List (String × String)) :=
  match csvLines csvContent with
  | [] => []
  | header :: rest =>
      let headers := (jsSplit header ',').map jsTrim
      (rest.map (fun line => zipPadRow headers ((jsSplit (jsTrim line) ',').map jsTrim))).filter
        (fun row => row.any (fun p => p.2 != ""))

/-- The industry remap applied by the analyze-company route before matching
(analyze-company/route.ts:95-102). -/
def industryToMatchOf (industry : String) : String :=
  if jsIncludes (jsToLower industry) "game" ||
      jsIncludes (jsToLower industry) "gaming" ||
      jsIncludes (jsToLower industry) "video" then
    "Media"
  else
    industry

/-- The `responseData` of the analyze-company route
(analyze-company/route.ts:146-160).  `primaryJobRole` is
`matchedData.jobRoles[0]`, hence an `Option`. -/
structure AnalyzeResponse where
  analysis : DeepSeekResponse
  industry : Industry
  jobRoles : List JobRole
  primaryJobRole : Option JobRole
  skills : List Skill
  tasks : List Task
  knowledgeAreas : List SkillMap
  masterSkills : List MasterSkill
  confidence : ℤ
deriving DecidableEq

/-- The success path of the analyze-company route `POST`
(analyze-company/route.ts:90-162) after the oracle reply `d` has been
obtained: remap the industry label, reconcile, and assemble `responseData`
with `confidence = Math.min(deepSeekResponse.confidence,
matchedData.confidence)`.  When the matcher throws (empty job-role table)
the route's catch re-runs `matchCompanyData` on the same tables
(route.ts:131), which throws for the same reason, so the request ends in
the 500 handler: that is the `none` case. -/
def analyzeCompanyRoute (env : MatchEnv) (m : MatcherData)
    (d : DeepSeekResponse) : Option AnalyzeResponse :=
  match matchCompanyData env m (industryToMatchOf d.industry) d.jobRole with
  | none => none
  | some matchedData =>
      some { analysis := d
             industry := matchedData.industry
             jobRoles := matchedData.jobRoles
             primaryJobRole := matchedData.jobRoles.head?
             skills := matchedData.skills
             tasks := matchedData.tasks
             knowledgeAreas := matchedData.knowledgeAreas
             masterSkills := matchedData.masterSkills
             confidence := min d.confidence matchedData.confidence }

/-- Outcome of the update-analysis route: a JSON `MatchedData`, the 404
"Industry not found" response, or the 500 handler reached through a thrown
`TypeError`. -/
inductive UpdateResult where
  | ok (md : MatchedData)
  | notFound
  | serverError
deriving DecidableEq

/-- The update-analysis route `POST` (update-analysis/route.ts:59-119) for a
present `industryId`: look the industry up in the *raw* csv tables, collect
its job roles, possibly re-match the original job-role text (accepted only
above confidence 20), then re-run `matchCompanyData` on the selected
industry's name.  When the industry has no job roles, `bestJobRole` is
`undefined` and `bestJobRole.role_name` (route.ts:104) throws: `serverError`. -/
def updateAnalysisRoute (env : MatchEnv) (d : MatcherData) (industryId : String)
    (originalJobRole : String) : UpdateResult :=
  let m := mkDataMatcher d
  match d.industries.find? (fun i => i.id = industryId) with
  | none => .notFound
  | some selectedIndustry =>
      let industryJobRoles := d.jobRoles.filter (fun jr => jr.industry_id = industryId)
      let bestJobRole : Option JobRole :=
        if originalJobRole ≠ "" ∧ industryJobRoles.length > 0 then
          let res := findBestJobRole env m originalJobRole industryId
          match res.1 with
          | some jobRole => if res.2 > 20 then some jobRole else industryJobRoles.head?
          | none => industryJobRoles.head?
        else
          industryJobRoles.head?
      match bestJobRole with
      | none => .serverError
      | some bj =>
          let roleName := if bj.role_name ≠ "" then bj.role_name else originalJobRole
          match matchCompanyData env m selectedIndustry.industry_name roleName with
          | none => .serverError
          | some md => .ok md

/-! ### Concrete fixtures used to instantiate the theorems -/

/-- A Healthcare industry row (id "1") with no job roles attached. -/
def exIndustryH : Industry := ⟨"1", "Healthcare", "Care"⟩

/-- A job role row belonging to a different industry (industry_id "2"). -/
def exRole2 : JobRole := ⟨"7", "2", "Engineer", "Eng", "Dev", "Builds"⟩

/-- Tables with one industry (zero roles of its own) and one job role of a
different industry. -/
def exTables : MatcherData := ⟨[exIndustryH], [exRole2], [], [], [], []⟩

/-- The matcher built over `exTables`. -/
def exMatcher : MatcherData := mkDataMatcher exTables

/-- Tables with a non-empty industry table and an empty job-role table. -/
def tablesNoRoles : MatcherData := ⟨[exIndustryH], [], [], [], [], []⟩

/-- An oracle reply that is structurally invalid: its `jobRole` field is
missing (empty). -/
def exBadReply : DeepSeekResponse :=
  ⟨"Acme", "D", "SD", "", [], [], [], "r", 85⟩

/-- A structurally valid oracle reply. -/
def exReply : DeepSeekResponse :=
  ⟨"Tech", "D", "SD", "dev", [], [], [], "r", 85⟩

/-! ### Helper lemmas -/

/-- `Math.round` maps `[0, 100]` into `[0, 100]` (on the integers). -/
theorem jsRound_bounds {q : ℚ} (h0 : 0 ≤ q) (h1 : q ≤ 100) :
    0 ≤ jsRound q ∧ jsRound q ≤ 100 := by
  constructor
  · exact Int.le_floor.2 (by push_cast; linarith)
  · have h : jsRound q < 101 := Int.floor_lt.2 (by push_cast; linarith)
    omega

/-- The fallback job role is defined whenever the stored job-role table is
non-empty. -/
theorem firstRoleOf_isSome (m : MatcherData) (industryId : String)
    (h : m.jobRoles ≠ []) : (firstRoleOf m industryId).isSome := by
  unfold firstRoleOf
  cases hir : (industryRolesOf m industryId).head? with
  | none =>
      cases hj : m.jobRoles with
      | nil => exact absurd hj h
      | cons a l => simp [hir, hj, Option.orElse]
  | some a => simp [hir, Option.orElse]

/-- Branch analysis of `findBestJobRole`: the result is either the fallback
`firstRole` with the stub confidence 0 or 15, a tier-1 (fuse) hit, or a
tier-2 (string-similarity) hit drawn from the industry's roles. -/
theorem findBestJobRole_spec (env : MatchEnv) (m : MatcherData)
    (searchTerm industryId : String) :
    findBestJobRole env m searchTerm industryId = (firstRoleOf m industryId, 0) ∨
    findBestJobRole env m searchTerm industryId = (firstRoleOf m industryId, 15) ∨
    (∃ b, b ∈ env.fuseJobRoles (industryRolesOf m industryId) (jsTrim searchTerm) ∧
      findBestJobRole env m searchTerm industryId =
        (some b.item, jsRound ((1 - b.score) * 100))) ∨
    (∃ bm jr, env.simBest (jsTrim searchTerm) (roleNames (industryRolesOf m industryId)) =
        some bm ∧ bm.rating > 1/5 ∧ jr ∈ industryRolesOf m industryId ∧
      findBestJobRole env m searchTerm industryId =
        (some jr, jsRound (bm.rating * 100))) := by
  by_cases h1 : searchTerm = "" ∨ industryRolesOf m industryId = []
  · left; simp only [findBestJobRole, h1, if_true]
  · by_cases h2 : jsTrim searchTerm = ""
    · left; simp only [findBestJobRole, h1, h2, if_false, if_true]
    · rcases hfuse : env.fuseJobRoles (industryRolesOf m industryId) (jsTrim searchTerm) with
        _ | ⟨b, rest⟩
      · by_cases h3 : roleNames (industryRolesOf m industryId) = []
        · right; left
          simp only [findBestJobRole, h1, h2, h3, hfuse, if_false, if_true]
        · rcases hsim : env.simBest (jsTrim searchTerm)
              (roleNames (industryRolesOf m industryId)) with _ | bm
          · right; left
            simp only [findBestJobRole, h1, h2, h3, hfuse, hsim, if_false]
          · by_cases h4 : bm.rating > 1/5
            · rcases hfind : (industryRolesOf m industryId).find?
                  (fun jr => jr.role_name = bm.target) with _ | jr
              · right; left
                simp only [findBestJobRole, h1, h2, h3, h4, hfuse, hsim, hfind,
                  if_false, if_true]
              · right; right; right
                refine ⟨bm, jr, rfl, h4, List.mem_of_find?_eq_some hfind, ?_⟩
                simp only [findBestJobRole, h1, h2, h3, h4, hfuse, hsim, hfind,
                  if_false, if_true]
            · right; left
              simp only [findBestJobRole, h1, h2, h3, h4, hfuse, hsim, if_false]
      · right; right; left
        refine ⟨b, List.mem_cons_self b rest, ?_⟩
        simp only [findBestJobRole, h1, h2, hfuse, if_false]

/-- Branch analysis of `findBestIndustry`, analogous to
`findBestJobRole_spec`. -/
theorem findBestIndustry_spec (env : MatchEnv) (m : MatcherData)
    (searchTerm : String) :
    findBestIndustry env m searchTerm = (m.industries.headD syntheticIndustry, 0) ∨
    findBestIndustry env m searchTerm = (m.industries.headD syntheticIndustry, 20) ∨
    (∃ b, b ∈ env.fuseIndustries m.industries (jsTrim searchTerm) ∧
      findBestIndustry env m searchTerm = (b.item, jsRound ((1 - b.score) * 100))) ∨
    (∃ bm ind, env.simBest (jsTrim searchTerm) (industryNames m.industries) = some bm ∧
      bm.rating > 3/10 ∧ ind ∈ m.industries ∧
      findBestIndustry env m searchTerm = (ind, jsRound (bm.rating * 100))) := by
  by_cases h1 : searchTerm = "" ∨ m.industries = []
  · left; simp only [findBestIndustry, h1, if_true]
  · by_cases h2 : jsTrim searchTerm = ""
    · left; simp only [findBestIndustry, h1, h2, if_false, if_true]
    · rcases hfuse : env.fuseIndustries m.industries (jsTrim searchTerm) with _ | ⟨b, rest⟩
      · by_cases h3 : industryNames m.industries = []
        · right; left
          simp only [findBestIndustry, h1, h2, h3, hfuse, if_false, if_true]
        · rcases hsim : env.simBest (jsTrim searchTerm) (industryNames m.industries) with
            _ | bm
          · right; left
            simp only [findBestIndustry, h1, h2, h3, hfuse, hsim, if_false]
          · by_cases h4 : bm.rating > 3/10
            · rcases hfind : m.industries.find?
                  (fun i => i.industry_name = bm.target) with _ | ind
              · right; left
                simp only [findBestIndustry, h1, h2, h3, h4, hfuse, hsim, hfind,
                  if_false, if_true]
              · right; right; right
                refine ⟨bm, ind, rfl, h4, List.mem_of_find?_eq_some hfind, ?_⟩
                simp only [findBestIndustry, h1, h2, h3, h4, hfuse, hsim, hfind,
                  if_false, if_true]
            · right; left
              simp only [findBestIndustry, h1, h2, h3, h4, hfuse, hsim, if_false]
      · right; right; left
        refine ⟨b, List.mem_cons_self b rest, ?_⟩
        simp only [findBestIndustry, h1, h2, hfuse, if_false]

/-- `findBestJobRole` produces a defined job role whenever the stored
job-role table is non-empty. -/
theorem findBestJobRole_fst_isSome (env : MatchEnv) (m : MatcherData)
    (searchTerm industryId : String) (h : m.jobRoles ≠ []) :
    ((findBestJobRole env m searchTerm industryId).1).isSome := by
  rcases findBestJobRole_spec env m searchTerm industryId with
    heq | heq | ⟨b, _, heq⟩ | ⟨bm, jr, _, _, _, heq⟩ <;> rw [heq]
  · exact firstRoleOf_isSome m industryId h
  · exact firstRoleOf_isSome m industryId h
  · rfl
  · rfl

/-- Inversion equation for the success case of `matchCompanyData`: once the
job-role lookup is known to produce a defined job role, the returned record
is determined. -/
theorem matchCompanyData_eq (env : MatchEnv) (m : MatcherData)
    (industrySearch jobRoleSearch : String) (jr : JobRole)
    (hjr : (findBestJobRole env m jobRoleSearch
      (findBestIndustry env m industrySearch).1.id).1 = some jr) :
    matchCompanyData env m industrySearch jobRoleSearch =
      some { industry := (findBestIndustry env m industrySearch).1
             jobRoles := industryRolesOf m (findBestIndustry env m industrySearch).1.id
             skills := (getRelatedData m jr.id).skills
             tasks := (getRelatedData m jr.id).tasks
             knowledgeAreas := (getRelatedData m jr.id).knowledgeAreas
             masterSkills := (getRelatedData m jr.id).masterSkills
             confidence := jsRound
               ((((findBestIndustry env m industrySearch).2 : ℚ) +
                 ((findBestJobRole env m jobRoleSearch
                   (findBestIndustry env m industrySearch).1.id).2 : ℚ)) / 2) } := by
  simp only [matchCompanyData, hjr]

/-! ### Claim C1 -/

/-- C1 (amended): for every `DataMatcher` built from reference tables and
all string inputs, `matchCompanyData` terminates normally and returns a
`MatchedData` without throwing — *provided the kept job-role table is
non-empty*.  (Empty industry tables and industries without job roles are
fine and only lower the confidence; an empty job-role table is not, see
`claim1_counterexample`.) -/
theorem claim1_amended (env : MatchEnv) (d : MatcherData)
    (industrySearch jobRoleSearch : String)
    (hJ : (mkDataMatcher d).jobRoles ≠ []) :
    ∃ md, matchCompanyData env (mkDataMatcher d) industrySearch jobRoleSearch = some md := by
  have h := findBestJobRole_fst_isSome env (mkDataMatcher d) jobRoleSearch
    (findBestIndustry env (mkDataMatcher d) industrySearch).1.id hJ
  obtain ⟨jr, hjr⟩ := Option.isSome_iff_exists.1 h
  exact ⟨_, matchCompanyData_eq env (mkDataMatcher d) industrySearch jobRoleSearch jr hjr⟩

/-- C1 (counterexample): with a well-formed, non-empty industry table but an
empty job-role table, `findBestJobRole` yields `undefined`
(`industryRoles[0] || this.jobRoles[0]` with both lists empty) and
`matchCompanyData` throws a `TypeError` at `jobRole.id` (deepseek.ts:440),
modelled by `none` — contradicting the claimed totality "even when … the
jobRoles table … is empty". -/
theorem claim1_counterexample :
    (mkDataMatcher tablesNoRoles).industries = [exIndustryH] ∧
    (mkDataMatcher tablesNoRoles).jobRoles = [] ∧
    matchCompanyData trivEnv (mkDataMatcher tablesNoRoles) "" "" = none :=
  ⟨rfl, rfl, rfl⟩

/-- C1 (witness): the amended theorem applied at concrete tables with a
non-empty job-role table. -/
theorem claim1_witness :
    (mkDataMatcher exTables).jobRoles ≠ [] ∧
    ∃ md, matchCompanyData trivEnv (mkDataMatcher exTables) "Tech" "dev" = some md :=
  ⟨by decide, claim1_amended trivEnv exTables "Tech" "dev" (by decide)⟩

/-! ### Claim C2 -/

/-- C2 (amended): if the resolved industry has zero job roles while the kept
job-role table is non-empty, `matchCompanyData` returns `jobRoles = []`
together with a job role taken from the first row of the entire unfiltered
job-role table, *with job-role confidence 0* (the empty-set guard at
deepseek.ts:317-322 fires before the confidence-15 fallback is reached),
and does not throw. -/
theorem claim2_amended (env : MatchEnv) (d : MatcherData)
    (industrySearch jobRoleSearch : String) (ind : Industry) (c : ℤ)
    (hres : findBestIndustry env (mkDataMatcher d) industrySearch = (ind, c))
    (hnoroles : industryRolesOf (mkDataMatcher d) ind.id = [])
    (hJ : (mkDataMatcher d).jobRoles ≠ []) :
    findBestJobRole env (mkDataMatcher d) jobRoleSearch ind.id =
      ((mkDataMatcher d).jobRoles.head?, 0) ∧
    ∃ md, matchCompanyData env (mkDataMatcher d) industrySearch jobRoleSearch = some md ∧
      md.jobRoles = [] ∧ md.industry = ind := by
  have hfirst : firstRoleOf (mkDataMatcher d) ind.id = (mkDataMatcher d).jobRoles.head? := by
    simp [firstRoleOf, hnoroles, Option.orElse]
  have hfb : findBestJobRole env (mkDataMatcher d) jobRoleSearch ind.id =
      ((mkDataMatcher d).jobRoles.head?, 0) := by
    simp only [findBestJobRole, hnoroles, or_true, if_true, hfirst]
  refine ⟨hfb, ?_⟩
  obtain ⟨jr0, tl, hcons⟩ := List.exists_cons_of_ne_nil hJ
  have hhead : (mkDataMatcher d).jobRoles.head? = some jr0 := by rw [hcons]; rfl
  have hjr : (findBestJobRole env (mkDataMatcher d) jobRoleSearch
      (findBestIndustry env (mkDataMatcher d) industrySearch).1.id).1 = some jr0 := by
    rw [hres, hfb, hhead]
  refine ⟨_, matchCompanyData_eq env (mkDataMatcher d) industrySearch jobRoleSearch jr0 hjr,
    ?_, ?_⟩
  · show industryRolesOf (mkDataMatcher d)
      (findBestIndustry env (mkDataMatcher d) industrySearch).1.id = []
    rw [hres]
    exact hnoroles
  · show (findBestIndustry env (mkDataMatcher d) industrySearch).1 = ind
    rw [hres]

/-- C2 (counterexample): industry "Healthcare" (id "1") has zero job roles
while the table holds a role of another industry; the matcher resolves the
empty industry label to it and `findBestJobRole` returns the global first
job role with confidence 0, not 15 as claimed. -/
theorem claim2_counterexample :
    findBestIndustry trivEnv (mkDataMatcher exTables) "" = (exIndustryH, 0) ∧
    industryRolesOf (mkDataMatcher exTables) "1" = [] ∧
    (mkDataMatcher exTables).jobRoles ≠ [] ∧
    findBestJobRole trivEnv (mkDataMatcher exTables) "dev" "1" = (some exRole2, 0) ∧
    (0 : ℤ) ≠ 15 :=
  ⟨rfl, rfl, by decide, rfl, by decide⟩

/-- C2 (witness): the amended theorem applied at the Healthcare fixture. -/
theorem claim2_witness :
    findBestJobRole trivEnv (mkDataMatcher exTables) "dev" exIndustryH.id =
      ((mkDataMatcher exTables).jobRoles.head?, 0) ∧
    ∃ md, matchCompanyData trivEnv (mkDataMatcher exTables) "" "dev" = some md ∧
      md.jobRoles = [] ∧ md.industry = exIndustryH :=
  claim2_amended trivEnv exTables "" "dev" exIndustryH 0 rfl rfl (by decide)

/-! ### Claim C3 -/

/-- C3 (amended): when the oracle *call* fails (network error, bad status,
no content), `analyzeCompanyWithDeepSeek` returns the deterministic offline
heuristic keyed on hostname substrings with confidence 30; when the call
succeeds but the structured reply is invalid (no JSON object, or missing
`industry`/`jobRole` field), it returns the same heuristic but with
confidence 60, because `createFallbackResponse` receives the non-empty raw
content (`confidence: content ? 60 : 30`, deepseek.ts:158). -/
theorem claim3_amended (hostname content : String) (r : DeepSeekResponse)
    (hc : content ≠ "") :
    analyzeCompanyWithDeepSeek .fetchFailure hostname =
      createFallbackResponse "" hostname ∧
    (analyzeCompanyWithDeepSeek .fetchFailure hostname).confidence = 30 ∧
    analyzeCompanyWithDeepSeek (.reply content none) hostname =
      createFallbackResponse content hostname ∧
    ((r.industry = "" ∨ r.jobRole = "") →
      analyzeCompanyWithDeepSeek (.reply content (some r)) hostname =
        createFallbackResponse content hostname) ∧
    (analyzeCompanyWithDeepSeek (.reply content none) hostname).confidence = 60 ∧
    (healthKeyword (jsToLower hostname) = true →
      (createFallbackResponse content hostname).industry = "Healthcare") ∧
    (healthKeyword (jsToLower hostname) = false → bankKeyword (jsToLower hostname) = true →
      (createFallbackResponse content hostname).industry = "Finance") ∧
    (healthKeyword (jsToLower hostname) = false → bankKeyword (jsToLower hostname) = false →
      eduKeyword (jsToLower hostname) = true →
      (createFallbackResponse content hostname).industry = "Education") ∧
    (healthKeyword (jsToLower hostname) = false → bankKeyword (jsToLower hostname) = false →
      eduKeyword (jsToLower hostname) = false → shopKeyword (jsToLower hostname) = true →
      (createFallbackResponse content hostname).industry = "Retail") ∧
    (healthKeyword (jsToLower hostname) = false → bankKeyword (jsToLower hostname) = false →
      eduKeyword (jsToLower hostname) = false → shopKeyword (jsToLower hostname) = false →
      gameKeyword (jsToLower hostname) = true →
      (createFallbackResponse content hostname).industry = "Media") := by
  refine ⟨rfl, rfl, rfl, ?_, ?_, ?_, ?_, ?_, ?_, ?_⟩
  · intro h
    simp only [analyzeCompanyWithDeepSeek, h, if_true]
  · simp only [analyzeCompanyWithDeepSeek, createFallbackResponse]
    rw [if_pos hc]
  · intro h1
    simp only [createFallbackResponse, h1, if_true]
  · intro h1 h2
    simp only [createFallbackResponse, h1, h2, Bool.false_eq_true, if_false, if_true]
  · intro h1 h2 h3
    simp only [createFallbackResponse, h1, h2, h3, Bool.false_eq_true, if_false, if_true]
  · intro h1 h2 h3 h4
    simp only [createFallbackResponse, h1, h2, h3, h4, Bool.false_eq_true, if_false,
      if_true]
  · intro h1 h2 h3 h4 h5
    simp only [createFallbackResponse, h1, h2, h3, h4, h5, Bool.false_eq_true, if_false,
      if_true]

/-- C3 (counterexample): an invalid structured reply (non-empty content,
`jobRole` missing) makes `analyzeCompanyWithDeepSeek` return the offline
heuristic with confidence 60 — not 30 as the claim states for every such
case. -/
theorem claim3_counterexample :
    exBadReply.jobRole = "" ∧
    analyzeCompanyWithDeepSeek (.reply "unparsed" (some exBadReply)) "example.com" =
      createFallbackResponse "unparsed" "example.com" ∧
    (analyzeCompanyWithDeepSeek (.reply "unparsed" (some exBadReply)) "example.com").confidence
      = 60 ∧
    (60 : ℤ) ≠ 30 :=
  ⟨rfl, rfl, rfl, by decide⟩

/-- C3 (witness): the amended theorem applied at a concrete hostname,
content and invalid reply. -/
theorem claim3_witness :
    ("ue" : String) ≠ "" ∧
    (analyzeCompanyWithDeepSeek .fetchFailure "myhealthsite.org" =
      createFallbackResponse "" "myhealthsite.org" ∧
    (analyzeCompanyWithDeepSeek .fetchFailure "myhealthsite.org").confidence = 30 ∧
    analyzeCompanyWithDeepSeek (.reply "ue" none) "myhealthsite.org" =
      createFallbackResponse "ue" "myhealthsite.org" ∧
    ((exBadReply.industry = "" ∨ exBadReply.jobRole = "") →
      analyzeCompanyWithDeepSeek (.reply "ue" (some exBadReply)) "myhealthsite.org" =
        createFallbackResponse "ue" "myhealthsite.org") ∧
    (analyzeCompanyWithDeepSeek (.reply "ue" none) "myhealthsite.org").confidence = 60 ∧
    (healthKeyword (jsToLower "myhealthsite.org") = true →
      (createFallbackResponse "ue" "myhealthsite.org").industry = "Healthcare") ∧
    (healthKeyword (jsToLower "myhealthsite.org") = false →
      bankKeyword (jsToLower "myhealthsite.org") = true →
      (createFallbackResponse "ue" "myhealthsite.org").industry = "Finance") ∧
    (healthKeyword (jsToLower "myhealthsite.org") = false →
      bankKeyword (jsToLower "myhealthsite.org") = false →
      eduKeyword (jsToLower "myhealthsite.org") = true →
      (createFallbackResponse "ue" "myhealthsite.org").industry = "Education") ∧
    (healthKeyword (jsToLower "myhealthsite.org") = false →
      bankKeyword (jsToLower "myhealthsite.org") = false →
      eduKeyword (jsToLower "myhealthsite.org") = false →
      shopKeyword (jsToLower "myhealthsite.org") = true →
      (createFallbackResponse "ue" "myhealthsite.org").industry = "Retail") ∧
    (healthKeyword (jsToLower "myhealthsite.org") = false →
      bankKeyword (jsToLower "myhealthsite.org") = false →
      eduKeyword (jsToLower "myhealthsite.org") = false →
      shopKeyword (jsToLower "myhealthsite.org") = false →
      gameKeyword (jsToLower "myhealthsite.org") = true →
      (createFallbackResponse "ue" "myhealthsite.org").industry = "Media")) :=
  ⟨by decide, claim3_amended "myhealthsite.org" "ue" exBadReply (by decide)⟩

/-! ### Claims C4 and C9: membership and confidence bounds -/

/-- The default head of a non-empty list is its member. -/
theorem headD_mem {α : Type} (l : List α) (d : α) (h : l ≠ []) : l.headD d ∈ l := by
  cases l with
  | nil => exact absurd rfl h
  | cons a t => exact List.mem_cons_self a t

/-- Membership in the industry-filtered role list. -/
theorem mem_industryRolesOf {m : MatcherData} {industryId : String} {jr : JobRole}
    (h : jr ∈ industryRolesOf m industryId) :
    jr ∈ m.jobRoles ∧ jr.industry_id = industryId := by
  have := List.mem_filter.1 h
  exact ⟨this.1, by simpa using this.2⟩

/-- When the industry has roles, the fallback role is the head of the
filtered list. -/
theorem firstRoleOf_of_ne_nil (m : MatcherData) (industryId : String)
    (h : industryRolesOf m industryId ≠ []) :
    ∃ jr, firstRoleOf m industryId = some jr ∧ jr ∈ industryRolesOf m industryId := by
  obtain ⟨a, t, heq⟩ := List.exists_cons_of_ne_nil h
  refine ⟨a, ?_, by rw [heq]; exact List.mem_cons_self a t⟩
  simp [firstRoleOf, heq, Option.orElse]

/-- The fallback role is always drawn from the stored job-role table when
that table is non-empty. -/
theorem firstRoleOf_mem (m : MatcherData) (industryId : String)
    (h : m.jobRoles ≠ []) :
    ∃ jr, firstRoleOf m industryId = some jr ∧ jr ∈ m.jobRoles := by
  by_cases hir : industryRolesOf m industryId = []
  · obtain ⟨a, t, heq⟩ := List.exists_cons_of_ne_nil h
    refine ⟨a, ?_, by rw [heq]; exact List.mem_cons_self a t⟩
    simp [firstRoleOf, hir, heq, Option.orElse]
  · obtain ⟨jr, hjr, hmem⟩ := firstRoleOf_of_ne_nil m industryId hir
    exact ⟨jr, hjr, (mem_industryRolesOf hmem).1⟩

/-- C4: for non-empty stored tables and any query, `findBestIndustry` and
`findBestJobRole` return an item drawn from the stored table together with
an integer confidence in `[0, 100]`.  The hypotheses about `env` are the
documented contracts of `fuse.js` (hits are drawn from the indexed list,
scores lie in `[0,1]`) and `string-similarity` (the best match is one of the
supplied names, ratings lie in `[0,1]`). -/
theorem claim4_matchBest_bounds (env : MatchEnv) (m : MatcherData)
    (q industryId : String)
    (hfI : ∀ l s r, r ∈ env.fuseIndustries l s → r.item ∈ l ∧ 0 ≤ r.score ∧ r.score ≤ 1)
    (hfJ : ∀ l s r, r ∈ env.fuseJobRoles l s → r.item ∈ l ∧ 0 ≤ r.score ∧ r.score ≤ 1)
    (hsim : ∀ s l bm, env.simBest s l = some bm →
      bm.target ∈ l ∧ 0 ≤ bm.rating ∧ bm.rating ≤ 1)
    (hI : m.industries ≠ []) (hJ : m.jobRoles ≠ []) :
    ((findBestIndustry env m q).1 ∈ m.industries ∧
      0 ≤ (findBestIndustry env m q).2 ∧ (findBestIndustry env m q).2 ≤ 100) ∧
    ((∃ jr, (findBestJobRole env m q industryId).1 = some jr ∧ jr ∈ m.jobRoles) ∧
      0 ≤ (findBestJobRole env m q industryId).2 ∧
      (findBestJobRole env m q industryId).2 ≤ 100) := by
  constructor
  · rcases findBestIndustry_spec env m q with
      heq | heq | ⟨b, hb, heq⟩ | ⟨bm, ind, hbm, _, hmem, heq⟩
    · rw [heq]
      refine ⟨headD_mem m.industries syntheticIndustry hI, ?_, ?_⟩ <;> norm_num
    · rw [heq]
      refine ⟨headD_mem m.industries syntheticIndustry hI, ?_, ?_⟩ <;> norm_num
    · rw [heq]
      obtain ⟨hmem, hs0, hs1⟩ := hfI m.industries (jsTrim q) b hb
      exact ⟨hmem, jsRound_bounds (by linarith) (by linarith)⟩
    · rw [heq]
      obtain ⟨_, hr0, hr1⟩ := hsim (jsTrim q) (industryNames m.industries) bm hbm
      exact ⟨hmem, jsRound_bounds (by linarith) (by linarith)⟩
  · rcases findBestJobRole_spec env m q industryId with
      heq | heq | ⟨b, hb, heq⟩ | ⟨bm, jr, hbm, _, hmem, heq⟩
    · rw [heq]
      obtain ⟨jr, hjr, hmem⟩ := firstRoleOf_mem m industryId hJ
      refine ⟨⟨jr, hjr, hmem⟩, ?_, ?_⟩ <;> norm_num
    · rw [heq]
      obtain ⟨jr, hjr, hmem⟩ := firstRoleOf_mem m industryId hJ
      refine ⟨⟨jr, hjr, hmem⟩, ?_, ?_⟩ <;> norm_num
    · rw [heq]
      obtain ⟨hmem, hs0, hs1⟩ := hfJ (industryRolesOf m industryId) (jsTrim q) b hb
      exact ⟨⟨b.item, rfl, (mem_industryRolesOf hmem).1⟩,
        jsRound_bounds (by linarith) (by linarith)⟩
    · rw [heq]
      obtain ⟨_, hr0, hr1⟩ := hsim (jsTrim q) (roleNames (industryRolesOf m industryId)) bm hbm
      exact ⟨⟨jr, rfl, (mem_industryRolesOf hmem).1⟩,
        jsRound_bounds (by linarith) (by linarith)⟩

/-- C4 (witness): the bounds theorem applied at concrete tables and query,
with the library contracts vacuously true in `trivEnv`. -/
theorem claim4_witness :
    ((findBestIndustry trivEnv exMatcher "zz").1 ∈ exMatcher.industries ∧
      0 ≤ (findBestIndustry trivEnv exMatcher "zz").2 ∧
      (findBestIndustry trivEnv exMatcher "zz").2 ≤ 100) ∧
    ((∃ jr, (findBestJobRole trivEnv exMatcher "zz" "2").1 = some jr ∧
        jr ∈ exMatcher.jobRoles) ∧
      0 ≤ (findBestJobRole trivEnv exMatcher "zz" "2").2 ∧
      (findBestJobRole trivEnv exMatcher "zz" "2").2 ≤ 100) :=
  claim4_matchBest_bounds trivEnv exMatcher "zz" "2"
    (by intro l s r hr; simp [trivEnv] at hr)
    (by intro l s r hr; simp [trivEnv] at hr)
    (by intro s l bm hbm; simp [trivEnv] at hbm)
    (by decide) (by decide)

/-- C9: whenever the stored table has at least one job role of the given
industry, `findBestJobRole` returns a role of that industry, for every
search term; the cross-industry fallback can only fire when the industry has
no roles at all.  The `env` hypothesis is the fuse.js contract that hits are
drawn from the indexed list. -/
theorem claim9_jobRole_industry (env : MatchEnv) (m : MatcherData)
    (q industryId : String)
    (hfJ : ∀ l s r, r ∈ env.fuseJobRoles l s → r.item ∈ l)
    (h : industryRolesOf m industryId ≠ []) :
    ∃ jr, (findBestJobRole env m q industryId).1 = some jr ∧
      jr.industry_id = industryId := by
  rcases findBestJobRole_spec env m q industryId with
    heq | heq | ⟨b, hb, heq⟩ | ⟨bm, jr, hbm, _, hmem, heq⟩
  · rw [heq]
    obtain ⟨jr, hjr, hmem⟩ := firstRoleOf_of_ne_nil m industryId h
    exact ⟨jr, hjr, (mem_industryRolesOf hmem).2⟩
  · rw [heq]
    obtain ⟨jr, hjr, hmem⟩ := firstRoleOf_of_ne_nil m industryId h
    exact ⟨jr, hjr, (mem_industryRolesOf hmem).2⟩
  · rw [heq]
    exact ⟨b.item, rfl,
      (mem_industryRolesOf (hfJ (industryRolesOf m industryId) (jsTrim q) b hb)).2⟩
  · rw [heq]
    exact ⟨jr, rfl, (mem_industryRolesOf hmem).2⟩

/-- C9 (witness): applied at a table whose only role belongs to industry
"2". -/
theorem claim9_witness :
    ∃ jr, (findBestJobRole trivEnv exMatcher "dev" "2").1 = some jr ∧
      jr.industry_id = "2" :=
  claim9_jobRole_industry trivEnv exMatcher "dev" "2"
    (by intro l s r hr; simp [trivEnv] at hr) (by decide)

/-! ### Claim C5 -/

/-- The `skillNames.some(...)` test of the knowledge-area join, rephrased in
terms of the resolved skills. -/
theorem skillNames_any_iff (d : MatcherData) (jobRoleId : String) (target : String) :
    (((((mkDataMatcher d).skills.filter (fun s => s.jobrole_id = jobRoleId)).map
        (fun s => s.skill_name)).filter (fun n => n ≠ "")).any
      (fun sn => skillNameMatches sn target)) = true ↔
    ∃ s, s ∈ (mkDataMatcher d).skills ∧ s.jobrole_id = jobRoleId ∧
      (jsIncludes (jsToLower s.skill_name) (jsToLower target) = true ∨
       jsIncludes (jsToLower target) (jsToLower s.skill_name) = true) := by
  constructor
  · intro h
    obtain ⟨n, hn, hmatch⟩ := List.any_eq_true.1 h
    have hn2 := List.mem_of_mem_filter hn
    obtain ⟨sk, hs, rfl⟩ := List.mem_map.1 hn2
    have hs1 := List.mem_filter.1 hs
    refine ⟨sk, hs1.1, by simpa using hs1.2, ?_⟩
    simpa [skillNameMatches] using hmatch
  · rintro ⟨sk, hs, hid, hmatch⟩
    refine List.any_eq_true.2 ⟨sk.skill_name, ?_, by simpa [skillNameMatches] using hmatch⟩
    refine List.mem_filter.2 ⟨List.mem_map.2 ⟨sk, List.mem_filter.2 ⟨hs, by simpa using hid⟩, rfl⟩, ?_⟩
    have hs2 : sk ∈ d.skills.filter (fun s => s.skill_name ≠ "") := hs
    simpa using (List.mem_filter.1 hs2).2

/-- C5: a `KnowledgeAreaMap` row (resp. `MasterSkill` row) appears in the
`getRelatedData` output exactly when some resolved skill's lowercased name
contains the row's lowercased `skill_name` or vice versa; the containment
test is symmetric in which string is the longer one. -/
theorem claim5_symmetric_join (d : MatcherData) (jobRoleId : String)
    (sm : SkillMap) (ms : MasterSkill) :
    (sm ∈ (getRelatedData (mkDataMatcher d) jobRoleId).knowledgeAreas ↔
      sm ∈ (mkDataMatcher d).skillMaps ∧
      ∃ s, s ∈ (mkDataMatcher d).skills ∧ s.jobrole_id = jobRoleId ∧
        (jsIncludes (jsToLower s.skill_name) (jsToLower sm.skill_name) = true ∨
         jsIncludes (jsToLower sm.skill_name) (jsToLower s.skill_name) = true)) ∧
    (ms ∈ (getRelatedData (mkDataMatcher d) jobRoleId).masterSkills ↔
      ms ∈ (mkDataMatcher d).masterSkills ∧
      ∃ s, s ∈ (mkDataMatcher d).skills ∧ s.jobrole_id = jobRoleId ∧
        (jsIncludes (jsToLower s.skill_name) (jsToLower ms.skill_name) = true ∨
         jsIncludes (jsToLower ms.skill_name) (jsToLower s.skill_name) = true)) := by
  have hka : (getRelatedData (mkDataMatcher d) jobRoleId).knowledgeAreas =
      (mkDataMatcher d).skillMaps.filter (fun r =>
        (((((mkDataMatcher d).skills.filter (fun s => s.jobrole_id = jobRoleId)).map
          (fun s => s.skill_name)).filter (fun n => n ≠ "")).any
            (fun sn => skillNameMatches sn r.skill_name))) := by
    simp only [getRelatedData]
  have hms : (getRelatedData (mkDataMatcher d) jobRoleId).masterSkills =
      (mkDataMatcher d).masterSkills.filter (fun r =>
        (((((mkDataMatcher d).skills.filter (fun s => s.jobrole_id = jobRoleId)).map
          (fun s => s.skill_name)).filter (fun n => n ≠ "")).any
            (fun sn => skillNameMatches sn r.skill_name))) := by
    simp only [getRelatedData]
  constructor
  · rw [hka, List.mem_filter, skillNames_any_iff]
  · rw [hms, List.mem_filter, skillNames_any_iff]

/-! ### Claim C6 -/

/-- C6 (bug evaluation): the original analysis call resolves the empty
industry label to Healthcare (id "1", zero job roles) and returns a
`MatchedData`; re-resolving through the update-analysis route with that very
`industryId` and the retained job-role text "x" does *not* reproduce it: the
route reads `role_name` of the `undefined` `bestJobRole` (route.ts:104) and
ends in the 500 handler instead. -/
theorem claim6_roundtrip_bug :
    (matchCompanyData trivEnv (mkDataMatcher exTables) "" "x").isSome = true ∧
    (findBestIndustry trivEnv (mkDataMatcher exTables) "").1 = exIndustryH ∧
    exIndustryH.id = "1" ∧
    updateAnalysisRoute trivEnv exTables "1" "x" = .serverError :=
  ⟨rfl, rfl, rfl, rfl⟩

/-! ### Claim C7 -/

/-- C7: with a non-blank query, when tier 1 (fuse) finds nothing and tier 2
(string similarity) does not strictly exceed the domain floor (0.3 for
industries, 0.2 for job roles), the matcher returns the first candidate with
the fixed stub confidence 20 (industries) resp. 15 (job roles); no error is
raised (the functions are total). -/
theorem claim7_tier2_thresholds (env : MatchEnv) (m : MatcherData)
    (q industryId : String)
    (hq : jsTrim q ≠ "")
    (hI : m.industries ≠ [])
    (hfuseI : env.fuseIndustries m.industries (jsTrim q) = [])
    (hsimI : ∀ bm, env.simBest (jsTrim q) (industryNames m.industries) = some bm →
      bm.rating ≤ 3/10)
    (hR : industryRolesOf m industryId ≠ [])
    (hfuseJ : env.fuseJobRoles (industryRolesOf m industryId) (jsTrim q) = [])
    (hsimJ : ∀ bm, env.simBest (jsTrim q) (roleNames (industryRolesOf m industryId)) =
      some bm → bm.rating ≤ 1/5) :
    findBestIndustry env m q = (m.industries.headD syntheticIndustry, 20) ∧
    findBestJobRole env m q industryId = ((industryRolesOf m industryId).head?, 15) := by
  have hq' : q ≠ "" := by
    intro h
    exact hq (by rw [h]; rfl)
  have h1 : ¬(q = "" ∨ m.industries = []) := by
    push_neg
    exact ⟨hq', hI⟩
  have h1r : ¬(q = "" ∨ industryRolesOf m industryId = []) := by
    push_neg
    exact ⟨hq', hR⟩
  have hfr : firstRoleOf m industryId = (industryRolesOf m industryId).head? := by
    obtain ⟨a, t, hc⟩ := List.exists_cons_of_ne_nil hR
    simp [firstRoleOf, hc, Option.orElse]
  constructor
  · by_cases h3 : industryNames m.industries = []
    · simp only [findBestIndustry, h1, hq, hfuseI, h3, if_false, if_true]
    · rcases hsb : env.simBest (jsTrim q) (industryNames m.industries) with _ | bm
      · simp only [findBestIndustry, h1, hq, hfuseI, h3, hsb, if_false]
      · have hnot : ¬(bm.rating > 3/10) := not_lt.2 (hsimI bm hsb)
        simp only [findBestIndustry, h1, hq, hfuseI, h3, hsb, hnot, if_false]
  · by_cases h3 : roleNames (industryRolesOf m industryId) = []
    · simp only [findBestJobRole, h1r, hq, hfuseJ, h3, if_false, if_true, hfr]
    · rcases hsb : env.simBest (jsTrim q) (roleNames (industryRolesOf m industryId)) with
        _ | bm
      · simp only [findBestJobRole, h1r, hq, hfuseJ, h3, hsb, if_false, hfr]
      · have hnot : ¬(bm.rating > 1/5) := not_lt.2 (hsimJ bm hsb)
        simp only [findBestJobRole, h1r, hq, hfuseJ, h3, hsb, hnot, if_false, hfr]

/-- C7 (witness): the threshold theorem applied at a concrete table and a
query missing both tiers (which find nothing in `trivEnv`). -/
theorem claim7_witness :
    findBestIndustry trivEnv exMatcher "zz" =
      (exMatcher.industries.headD syntheticIndustry, 20) ∧
    findBestJobRole trivEnv exMatcher "zz" "2" =
      ((industryRolesOf exMatcher "2").head?, 15) :=
  claim7_tier2_thresholds trivEnv exMatcher "zz" "2"
    (by decide) (by decide) rfl (by intro bm h; simp [trivEnv] at h)
    (by decide) rfl (by intro bm h; simp [trivEnv] at h)

/-! ### Claim C10 -/

/-- C10: on the success path of the analyze-company route, the top-level
confidence is `Math.min` of the oracle confidence and the matcher
confidence, hence never exceeds either component. -/
theorem claim10_confidence_min (env : MatchEnv) (m : MatcherData)
    (d : DeepSeekResponse) (md : MatchedData)
    (h : matchCompanyData env m (industryToMatchOf d.industry) d.jobRole = some md) :
    ∃ r, analyzeCompanyRoute env m d = some r ∧
      r.confidence = min d.confidence md.confidence ∧
      r.confidence ≤ d.confidence ∧ r.confidence ≤ md.confidence := by
  refine ⟨{ analysis := d
            industry := md.industry
            jobRoles := md.jobRoles
            primaryJobRole := md.jobRoles.head?
            skills := md.skills
            tasks := md.tasks
            knowledgeAreas := md.knowledgeAreas
            masterSkills := md.masterSkills
            confidence := min d.confidence md.confidence }, ?_, rfl,
    min_le_left _ _, min_le_right _ _⟩
  simp only [analyzeCompanyRoute, h]

/-- C10 (witness): applied at a concrete reply and tables. -/
theorem claim10_witness :
    ∃ md, matchCompanyData trivEnv exMatcher (industryToMatchOf exReply.industry)
        exReply.jobRole = some md ∧
      ∃ r, analyzeCompanyRoute trivEnv exMatcher exReply = some r ∧
        r.confidence = min exReply.confidence md.confidence ∧
        r.confidence ≤ exReply.confidence ∧ r.confidence ≤ md.confidence :=
  ⟨_, rfl, claim10_confidence_min trivEnv exMatcher exReply _ rfl⟩

/-! ### Claim C8 -/

/-- `objSet` appends a fresh binding when the key is absent. -/
theorem objSet_of_not_mem (row : List (String × String)) (key value : String)
    (h : row.any (fun p => p.1 = key) = false) :
    objSet row key value = row ++ [(key, value)] := by
  simp only [objSet, h, Bool.false_eq_true, if_false]

/-- Folding `objSet` over index-name pairs with pairwise-distinct names and
an accumulator free of those names just appends the bindings in order. -/
theorem foldl_objSet_eq (values : List String) (l : List (ℕ × String)) :
    ∀ acc : List (String × String), (l.map Prod.snd).Nodup →
      (∀ p ∈ l, acc.any (fun q => q.1 = p.2) = false) →
      l.foldl (fun row p => objSet row p.2 (values.getD p.1 "")) acc =
        acc ++ l.map (fun p => (p.2, values.getD p.1 "")) := by
  induction l with
  | nil => intro acc _ _; simp
  | cons p t ih =>
      intro acc hnd hdisj
      have hnd' : (p.2 :: t.map Prod.snd).Nodup := by simpa using hnd
      rw [List.foldl_cons, objSet_of_not_mem _ _ _ (hdisj p (List.mem_cons_self p t))]
      rw [ih (acc ++ [(p.2, values.getD p.1 "")]) (List.nodup_cons.1 hnd').2 ?_]
      · simp
      · intro q hq
        have h1 : acc.any (fun r => r.1 = q.2) = false :=
          hdisj q (List.mem_cons_of_mem p hq)
        have h2 : p.2 ≠ q.2 := by
          intro h
          exact (List.nodup_cons.1 hnd').1 (h ▸ List.mem_map_of_mem Prod.snd hq)
        simp [List.any_append, h1, h2]

/-- With duplicate-free headers, the JS-object row builder agrees with the
zip-and-pad row of the specification model. -/
theorem mkRow_eq_zipPadRow (headers : List String) (hnd : headers.Nodup)
    (values : List String) : mkRow headers values = zipPadRow headers values := by
  unfold mkRow zipPadRow
  rw [foldl_objSet_eq values headers.enum [] ?_ ?_]
  · simp
  · rw [List.enum_map_snd]; exact hnd
  · intro p _; rfl

/-- The loop body of `parseCSVData` over the data lines agrees with the
map-then-filter of the specification model, for lines that survived the
blank-line filter. -/
theorem filterMap_rows (hs : List String) (hnd : hs.Nodup) :
    ∀ ls : List String, (∀ line ∈ ls, jsTrim line ≠ "") →
      ls.filterMap (fun rawLine =>
        if jsTrim rawLine = "" then none
        else
          if (mkRow hs ((jsSplit (jsTrim rawLine) ',').map jsTrim)).any
              (fun p => p.2 != "") then
            some (mkRow hs ((jsSplit (jsTrim rawLine) ',').map jsTrim))
          else none) =
      (ls.map (fun line => zipPadRow hs ((jsSplit (jsTrim line) ',').map jsTrim))).filter
        (fun row => row.any (fun p => p.2 != "")) := by
  intro ls
  induction ls with
  | nil => intro _; rfl
  | cons a t ih =>
      intro hne
      have ha : ¬(jsTrim a = "") := hne a (List.mem_cons_self a t)
      rw [List.filterMap_cons, List.map_cons, List.filter_cons]
      rw [if_neg ha, mkRow_eq_zipPadRow hs hnd]
      rw [ih (fun l hl => hne l (List.mem_cons_of_mem a hl))]
      by_cases hd : (zipPadRow hs ((jsSplit (jsTrim a) ',').map jsTrim)).any
          (fun p => p.2 != "") = true
      · simp only [hd, if_true]
      · simp only [Bool.not_eq_true] at hd
        simp only [hd, Bool.false_eq_true, if_false]

/-- C8: `parseCSVData` treats the first (non-blank) line as the header, maps
every subsequent non-blank line to a row keyed by the header names (padding
missing trailing fields with `""`), drops rows whose fields are all empty,
and never throws (it is a total function): it coincides with the
specification model `parseCSVSpec` whenever the header names are pairwise
distinct (with duplicate header names the JS object keeps a single key, so
the row cannot carry one field per header occurrence in any model). -/
theorem claim8_parseCSV_refines (csv : String)
    (hnd : (csvHeaders csv).Nodup) : parseCSVData csv = parseCSVSpec csv := by
  have hmem : ∀ line ∈ csvLines csv, jsTrim line ≠ "" := by
    intro line hline
    have h2 := (List.mem_filter.1 hline).2
    simp only [Bool.and_eq_true, bne_iff_ne, ne_eq] at h2
    exact h2.2
  rcases hl : csvLines csv with _ | ⟨header, rest⟩
  · simp [parseCSVData, parseCSVSpec, hl]
  · have hh : csvHeaders csv = (jsSplit header ',').map jsTrim := by
      rw [csvHeaders, hl]
      simp
    rcases rest with _ | ⟨l2, rest'⟩
    · simp [parseCSVData, parseCSVSpec, hl]
    · have hlen : ¬((header :: l2 :: rest' : List String).length < 2) := by
        simp only [List.length_cons]
        omega
      have hne : ∀ line ∈ l2 :: rest', jsTrim line ≠ "" := by
        intro line hline
        exact hmem line (by rw [hl]; exact List.mem_cons_of_mem header hline)
      rw [parseCSVData, parseCSVSpec]
      simp only [hl, hlen, if_false, List.tail_cons]
      rw [hh]
      exact filterMap_rows ((jsSplit header ',').map jsTrim) (hh ▸ hnd) (l2 :: rest') hne

/-- C8 (witness): the refinement applied to a concrete delimited input with
a ragged row (padded) and an all-empty row (dropped). -/
theorem claim8_witness :
    (csvHeaders "a,b,c\n1,2\n,,\n3,4,5").Nodup ∧
    parseCSVData "a,b,c\n1,2\n,,\n3,4,5" = parseCSVSpec "a,b,c\n1,2\n,,\n3,4,5" :=
  ⟨by decide, claim8_parseCSV_refines "a,b,c\n1,2\n,,\n3,4,5" (by decide)⟩

end HP
